import Mathlib

/-!
Verification of the mold-construction pipeline of `src/Python/makeMold.py`
(STL_Mold_Maker).

Solids are modelled as Boolean membership predicates on rational 3-space.
The external trimesh CSG primitives (box, cylinder, union, difference,
intersection) are modelled by their exact set semantics, following the
spec's external-collaborator contract ("exact boolean semantics").
Library facilities whose results the script merely consumes — mesh
loading, the `is_watertight` flag, the bounding-box query, hole filling,
and the emptiness test of a boolean result — are supplied as data or as
function parameters, since they live outside the script.
-/

namespace MoldMaker

/-- A point of rational 3-space. -/
@[ext]
structure Point where
  x : ℚ
  y : ℚ
  z : ℚ
deriving DecidableEq

/-- A solid, modelled by its Boolean membership predicate. -/
def Solid : Type := Point → Bool

/-- A solid is empty when no point belongs to it: the semantics of the
trimesh `is_empty` attribute consumed at makeMold.py line 35. -/
def SolidEmpty (s : Solid) : Prop := ∀ p, s p = false

namespace trimesh

/-- Model of `trimesh.creation.box(extents=e, transform=T)` where `T` is the
pure translation taking the origin to `center` (the only transforms the
script builds are `translation_matrix` calls): the axis-aligned box with the
given extents centred at `center`. -/
def creation.box (extents center : Point) : Solid := fun p =>
  decide (center.x - extents.x / 2 ≤ p.x) && decide (p.x ≤ center.x + extents.x / 2) &&
  decide (center.y - extents.y / 2 ≤ p.y) && decide (p.y ≤ center.y + extents.y / 2) &&
  decide (center.z - extents.z / 2 ≤ p.z) && decide (p.z ≤ center.z + extents.z / 2)

/-- Model of `trimesh.creation.cylinder(radius, height, sections)`: a solid
cylinder whose axis is the z-axis, centred at the origin, spanning
`-height/2 ≤ z ≤ height/2`.  The `sections` argument only controls the mesh
tessellation and has no counterpart in the exact model. -/
def creation.cylinder (radius height : ℚ) : Solid := fun p =>
  decide (p.x ^ 2 + p.y ^ 2 ≤ radius ^ 2) &&
  decide (-(height / 2) ≤ p.z) && decide (p.z ≤ height / 2)

/-- Model of `trimesh.boolean.union([a, b])`. -/
def boolean.union (a b : Solid) : Solid := fun p => a p || b p

/-- Model of `trimesh.boolean.difference([a, b])`. -/
def boolean.difference (a b : Solid) : Solid := fun p => a p && !(b p)

/-- Model of `trimesh.boolean.intersection([a, b])`. -/
def boolean.intersection (a b : Solid) : Solid := fun p => a p && b p

end trimesh

/-- Model of `mesh.apply_translation(v)`. -/
def apply_translation (s : Solid) (v : Point) : Solid := fun p =>
  s ⟨p.x - v.x, p.y - v.y, p.z - v.z⟩

/-- The data of a loaded trimesh mesh that makeMold.py consumes: its solid
geometry, its `is_watertight` flag and its `bounds` (min corner, max corner)
as reported by the library. -/
structure Mesh where
  solid : Solid
  is_watertight : Bool
  bounds : Point × Point

/-- Model of `wall_thickness = 10.0`, makeMold.py line 50. -/
def wall_thickness : ℚ := 10.0

/-- The candidate pour-spout solid built at makeMold.py lines 11-31: a
`trimesh.creation.cylinder` (axis along z) of radius 2.5 and height
`spout_length = (max_corner.x - min_corner.x) * 0.4`, translated by
`(spout_position.x + spout_length / 2, spout_position.y, spout_position.z)`
where `spout_position = (min_corner.x + wall_thickness,
(min_corner.y + max_corner.y) / 2, z_split - wall_thickness)`. -/
def pour_spout_solid (wall_thickness : ℚ) (min_corner max_corner : Point)
    (z_split : ℚ) : Solid :=
  let spout_radius : ℚ := 2.5
  let spout_length : ℚ := (max_corner.x - min_corner.x) * 0.4
  let pour_spout := trimesh.creation.cylinder spout_radius spout_length
  let spout_position : Point :=
    ⟨min_corner.x + wall_thickness,
     (min_corner.y + max_corner.y) / 2,
     z_split - wall_thickness⟩
  apply_translation pour_spout
    ⟨spout_position.x + spout_length / 2, spout_position.y, spout_position.z⟩

/-- Model of `create_pour_spout` (makeMold.py lines 6-38).  The emptiness
test on the boolean result is a trimesh attribute, passed in as `is_empty`. -/
def create_pour_spout (is_empty : Solid → Bool) (mold_with_cavity : Solid)
    (wall_thickness : ℚ) (min_corner max_corner : Point) (z_split : ℚ) :
    Except String Solid :=
  let pour_spout := pour_spout_solid wall_thickness min_corner max_corner z_split
  let cavity_intersection := trimesh.boolean.intersection pour_spout mold_with_cavity
  if is_empty cavity_intersection then
    Except.error "Pour spout does not intersect with the cavity!"
  else
    Except.ok pour_spout

/-- Model of `min_corner = bounding_box[0] - wall_thickness` (line 52). -/
def min_corner_of (m : Mesh) : Point :=
  ⟨m.bounds.1.x - wall_thickness, m.bounds.1.y - wall_thickness,
   m.bounds.1.z - wall_thickness⟩

/-- Model of `max_corner = bounding_box[1] + wall_thickness` (line 53). -/
def max_corner_of (m : Mesh) : Point :=
  ⟨m.bounds.2.x + wall_thickness, m.bounds.2.y + wall_thickness,
   m.bounds.2.z + wall_thickness⟩

/-- Model of `mold_block_size = max_corner - min_corner` (line 56). -/
def mold_block_size (min_corner max_corner : Point) : Point :=
  ⟨max_corner.x - min_corner.x, max_corner.y - min_corner.y,
   max_corner.z - min_corner.z⟩

/-- The translation target of `mold_block_transform`: `(min_corner + max_corner) / 2`
(lines 57-59). -/
def mold_block_transform (min_corner max_corner : Point) : Point :=
  ⟨(min_corner.x + max_corner.x) / 2, (min_corner.y + max_corner.y) / 2,
   (min_corner.z + max_corner.z) / 2⟩

/-- Model of `mold_block = trimesh.creation.box(extents=mold_block_size,
transform=mold_block_transform)` (lines 60-63). -/
def mold_block (min_corner max_corner : Point) : Solid :=
  trimesh.creation.box (mold_block_size min_corner max_corner)
    (mold_block_transform min_corner max_corner)

/-- Model of `mold_with_cavity = trimesh.boolean.difference([mold_block, original_mesh])`
(line 66). -/
def mold_with_cavity (original : Solid) (min_corner max_corner : Point) : Solid :=
  trimesh.boolean.difference (mold_block min_corner max_corner) original

/-- Model of `z_split = (min_corner[2] + max_corner[2]) / 2` (line 69). -/
def z_split (min_corner max_corner : Point) : ℚ :=
  (min_corner.z + max_corner.z) / 2

/-- Model of `top_split_box` (lines 71-78). -/
def top_split_box (min_corner max_corner : Point) : Solid :=
  trimesh.creation.box
    ⟨(mold_block_size min_corner max_corner).x,
     (mold_block_size min_corner max_corner).y,
     (mold_block_size min_corner max_corner).z / 2⟩
    ⟨(min_corner.x + max_corner.x) / 2,
     (min_corner.y + max_corner.y) / 2,
     z_split min_corner max_corner + (mold_block_size min_corner max_corner).z / 4⟩

/-- Model of `bottom_split_box` (lines 80-87). -/
def bottom_split_box (min_corner max_corner : Point) : Solid :=
  trimesh.creation.box
    ⟨(mold_block_size min_corner max_corner).x,
     (mold_block_size min_corner max_corner).y,
     (mold_block_size min_corner max_corner).z / 2⟩
    ⟨(min_corner.x + max_corner.x) / 2,
     (min_corner.y + max_corner.y) / 2,
     z_split min_corner max_corner - (mold_block_size min_corner max_corner).z / 4⟩

/-- Model of `mold_top = trimesh.boolean.intersection([mold_with_cavity, top_split_box])`
(line 89). -/
def mold_top_initial (original : Solid) (min_corner max_corner : Point) : Solid :=
  trimesh.boolean.intersection (mold_with_cavity original min_corner max_corner)
    (top_split_box min_corner max_corner)

/-- Model of `mold_bottom = trimesh.boolean.intersection([mold_with_cavity, bottom_split_box])`
(line 90). -/
def mold_bottom_initial (original : Solid) (min_corner max_corner : Point) : Solid :=
  trimesh.boolean.intersection (mold_with_cavity original min_corner max_corner)
    (bottom_split_box min_corner max_corner)

/-- Model of `key_radius = wall_thickness / 4` (line 93). -/
def key_radius : ℚ := wall_thickness / 4

/-- Model of `key_height = wall_thickness` (line 94). -/
def key_height : ℚ := wall_thickness

/-- Model of `key_positions` (lines 95-100). -/
def key_positions (min_corner max_corner : Point) : List Point :=
  [⟨min_corner.x + wall_thickness, min_corner.y + wall_thickness,
    z_split min_corner max_corner⟩,
   ⟨max_corner.x - wall_thickness, min_corner.y + wall_thickness,
    z_split min_corner max_corner⟩,
   ⟨min_corner.x + wall_thickness, max_corner.y - wall_thickness,
    z_split min_corner max_corner⟩,
   ⟨max_corner.x - wall_thickness, max_corner.y - wall_thickness,
    z_split min_corner max_corner⟩]

/-- The key cylinder placed at one loop position (lines 103-104): the same
translated cylinder is unioned into the bottom half and subtracted from the
top half. -/
def key_solid (position : Point) : Solid :=
  apply_translation (trimesh.creation.cylinder key_radius key_height) position

/-- The key-insertion loop (lines 102-107), carrying the
`(mold_top, mold_bottom)` pair through the four positions. -/
def insert_keys (min_corner max_corner : Point) (tb : Solid × Solid) :
    Solid × Solid :=
  (key_positions min_corner max_corner).foldl
    (fun tb position =>
      (trimesh.boolean.difference tb.1 (key_solid position),
       trimesh.boolean.union tb.2 (key_solid position)))
    tb

/-- The `(mold_top, mold_bottom)` pair right after the key loop, before the
spout step. -/
def keyed_halves (m : Mesh) : Solid × Solid :=
  insert_keys (min_corner_of m) (max_corner_of m)
    (mold_top_initial m.solid (min_corner_of m) (max_corner_of m),
     mold_bottom_initial m.solid (min_corner_of m) (max_corner_of m))

/-- The shelled block derived from a mesh, as passed to `create_pour_spout`
at lines 110-112. -/
def mwc_of (m : Mesh) : Solid :=
  mold_with_cavity m.solid (min_corner_of m) (max_corner_of m)

/-- The candidate spout derived from a mesh. -/
def spout_of (m : Mesh) : Solid :=
  pour_spout_solid wall_thickness (min_corner_of m) (max_corner_of m)
    (z_split (min_corner_of m) (max_corner_of m))

/-- The `create_pour_spout` call of lines 110-112 with the arguments the
pipeline passes. -/
def spout_call (is_empty : Solid → Bool) (m : Mesh) : Except String Solid :=
  create_pour_spout is_empty (mwc_of m) wall_thickness (min_corner_of m)
    (max_corner_of m) (z_split (min_corner_of m) (max_corner_of m))

/-- Steps 1-5 of `create_negative_space_mold` after the watertightness
handling (lines 49-121): on success the exported pair is
`(mold_top, mold_bottom - pour_spout)`; a raised `ValueError` from
`create_pour_spout` aborts the run before any export. -/
def mold_halves (is_empty : Solid → Bool) (m : Mesh) :
    Except String (Solid × Solid) :=
  match spout_call is_empty m with
  | Except.error e => Except.error e
  | Except.ok pour_spout =>
      Except.ok ((keyed_halves m).1,
        trimesh.boolean.difference (keyed_halves m).2 pour_spout)

/-- The watertightness handling of lines 46-47: a mesh that is not
watertight gets exactly one `trimesh.repair.fill_holes` attempt (modelled by
the external `fill_holes`); there is no re-check and no retry. -/
def watertight_step (fill_holes : Mesh → Mesh) (m : Mesh) : Mesh :=
  if m.is_watertight then m else fill_holes m

/-- Model of `create_negative_space_mold` (lines 41-123). -/
def create_negative_space_mold (fill_holes : Mesh → Mesh)
    (is_empty : Solid → Bool) (input_mesh : Mesh) :
    Except String (Solid × Solid) :=
  mold_halves is_empty (watertight_step fill_holes input_mesh)

/-- Outcome of the `__main__` block: either only the error message is
printed (no construction, no export), or the pipeline is run. -/
inductive MainOutcome where
  | errorMessage (msg : String)
  | pipelineRun (result : Except String (Solid × Solid))

/-- Model of the `__main__` block (lines 126-137): `load_mesh` stands for
`trimesh.load_mesh`, `path_exists` for `os.path.exists(args.input_file)`. -/
def main_entry (load_mesh : String → Mesh) (fill_holes : Mesh → Mesh)
    (is_empty : Solid → Bool) (path_exists : Bool) (input_file : String) :
    MainOutcome :=
  if path_exists then
    MainOutcome.pipelineRun
      (create_negative_space_mold fill_holes is_empty (load_mesh input_file))
  else
    MainOutcome.errorMessage ("Input file " ++ input_file ++ " does not exist.")

/-- Componentwise bounds predicate: `p` lies in the axis-aligned box with
corners `bmin`, `bmax`. -/
def in_bounds (bmin bmax p : Point) : Prop :=
  bmin.x ≤ p.x ∧ p.x ≤ bmax.x ∧ bmin.y ≤ p.y ∧ p.y ≤ bmax.y ∧
    bmin.z ≤ p.z ∧ p.z ≤ bmax.z

theorem box_mem (extents center : Point) (p : Point) :
    trimesh.creation.box extents center p = true ↔
      ((center.x - extents.x / 2 ≤ p.x ∧ p.x ≤ center.x + extents.x / 2) ∧
       (center.y - extents.y / 2 ≤ p.y ∧ p.y ≤ center.y + extents.y / 2) ∧
       (center.z - extents.z / 2 ≤ p.z ∧ p.z ≤ center.z + extents.z / 2)) := by
  simp [trimesh.creation.box]
  tauto

theorem cylinder_mem (radius height : ℚ) (p : Point) :
    trimesh.creation.cylinder radius height p = true ↔
      (p.x ^ 2 + p.y ^ 2 ≤ radius ^ 2 ∧
       -(height / 2) ≤ p.z ∧ p.z ≤ height / 2) := by
  simp [trimesh.creation.cylinder]
  tauto

/-- The union of the four key cylinders, one per loop position. -/
def keys_union (min_corner max_corner : Point) : Solid := fun p =>
  (key_positions min_corner max_corner).any fun position => key_solid position p

/-- A mesh whose reported bounding box is the 50-cube of the end-to-end
scenario and whose geometry is that cube. -/
def demo_cube_mesh : Mesh :=
  { solid := trimesh.creation.box ⟨50, 50, 50⟩ ⟨0, 0, 0⟩
    is_watertight := true
    bounds := (⟨-25, -25, -25⟩, ⟨25, 25, 25⟩) }

/-- A watertight mesh with empty geometry and the 50-cube bounds, used to
exercise the control flow on a run where every boolean result is easy to
evaluate. -/
def demo_empty_mesh : Mesh :=
  { solid := fun _ => false
    is_watertight := true
    bounds := (⟨-25, -25, -25⟩, ⟨25, 25, 25⟩) }

/-- A mesh like `demo_empty_mesh` but flagged non-watertight. -/
def demo_nw_mesh : Mesh :=
  { solid := fun _ => false
    is_watertight := false
    bounds := (⟨-25, -25, -25⟩, ⟨25, 25, 25⟩) }

theorem mold_block_mem (min_corner max_corner : Point) (p : Point) :
    mold_block min_corner max_corner p = true ↔
      in_bounds min_corner max_corner p := by
  rw [mold_block, box_mem, in_bounds]
  constructor
  · rintro ⟨⟨hx1, hx2⟩, ⟨hy1, hy2⟩, ⟨hz1, hz2⟩⟩
    refine ⟨?_, ?_, ?_, ?_, ?_, ?_⟩ <;>
      simp only [mold_block_size, mold_block_transform] at * <;> linarith
  · rintro ⟨hx1, hx2, hy1, hy2, hz1, hz2⟩
    refine ⟨⟨?_, ?_⟩, ⟨?_, ?_⟩, ⟨?_, ?_⟩⟩ <;>
      simp only [mold_block_size, mold_block_transform] <;> linarith

theorem create_pour_spout_ok_eq (is_empty : Solid → Bool) (mwc : Solid)
    (wt : ℚ) (mn mx : Point) (zs : ℚ) (s : Solid)
    (h : create_pour_spout is_empty mwc wt mn mx zs = Except.ok s) :
    s = pour_spout_solid wt mn mx zs := by
  simp only [create_pour_spout] at h
  cases hcase : is_empty
      (trimesh.boolean.intersection (pour_spout_solid wt mn mx zs) mwc) <;>
    rw [hcase] at h <;> simp at h
  exact h.symm

theorem create_pour_spout_error_iff (is_empty : Solid → Bool) (mwc : Solid)
    (wt : ℚ) (mn mx : Point) (zs : ℚ) :
    (∃ msg, create_pour_spout is_empty mwc wt mn mx zs = Except.error msg) ↔
      is_empty (trimesh.boolean.intersection (pour_spout_solid wt mn mx zs) mwc)
        = true := by
  unfold create_pour_spout
  cases hcase : is_empty
      (trimesh.boolean.intersection (pour_spout_solid wt mn mx zs) mwc) <;>
    simp [hcase]

theorem create_pour_spout_error_msg (is_empty : Solid → Bool) (mwc : Solid)
    (wt : ℚ) (mn mx : Point) (zs : ℚ) (msg : String)
    (h : create_pour_spout is_empty mwc wt mn mx zs = Except.error msg) :
    msg = "Pour spout does not intersect with the cavity!" := by
  simp only [create_pour_spout] at h
  cases hcase : is_empty
      (trimesh.boolean.intersection (pour_spout_solid wt mn mx zs) mwc) <;>
    rw [hcase] at h <;> simp at h
  exact h.symm

theorem foldl_keys_spec (l : List Point) (top bottom : Solid) (p : Point) :
    (l.foldl
        (fun tb position =>
          (trimesh.boolean.difference tb.1 (key_solid position),
           trimesh.boolean.union tb.2 (key_solid position)))
        (top, bottom)).1 p = (top p && !(l.any fun q => key_solid q p)) ∧
    (l.foldl
        (fun tb position =>
          (trimesh.boolean.difference tb.1 (key_solid position),
           trimesh.boolean.union tb.2 (key_solid position)))
        (top, bottom)).2 p = (bottom p || (l.any fun q => key_solid q p)) := by
  induction l generalizing top bottom with
  | nil => simp
  | cons q l ih =>
      simp only [List.foldl_cons, List.any_cons]
      rcases ih (trimesh.boolean.difference top (key_solid q))
          (trimesh.boolean.union bottom (key_solid q)) with ⟨h1, h2⟩
      constructor
      · rw [h1]
        simp only [trimesh.boolean.difference, Bool.not_or, ← Bool.and_assoc]
      · rw [h2]
        simp only [trimesh.boolean.union, ← Bool.or_assoc]

theorem insert_keys_fst (min_corner max_corner : Point) (top bottom : Solid)
    (p : Point) :
    (insert_keys min_corner max_corner (top, bottom)).1 p
      = (top p && !(keys_union min_corner max_corner p)) :=
  (foldl_keys_spec (key_positions min_corner max_corner) top bottom p).1

theorem insert_keys_snd (min_corner max_corner : Point) (top bottom : Solid)
    (p : Point) :
    (insert_keys min_corner max_corner (top, bottom)).2 p
      = (bottom p || keys_union min_corner max_corner p) :=
  (foldl_keys_spec (key_positions min_corner max_corner) top bottom p).2

theorem difference_eq_self (a b : Solid)
    (h : SolidEmpty (trimesh.boolean.intersection b a)) (p : Point) :
    trimesh.boolean.difference a b p = a p := by
  have hp := h p
  simp only [trimesh.boolean.intersection] at hp
  simp only [trimesh.boolean.difference]
  cases hb : b p
  · simp
  · rw [hb] at hp
    simp at hp
    simp [hp]

/-- C8: the key-insertion loop runs over exactly four positions, and for
each position the identical cylinder (`key_solid position`, with the one
radius `key_radius` and height `key_height`) is unioned into the bottom
half and subtracted from the top half: after all four insertions the top
half equals the original top minus the union of the four key cylinders and
the bottom half equals the original bottom plus that same union, so every
top-half recess exactly matches its corresponding bottom-half peg. -/
theorem alignment_keys_matching (min_corner max_corner : Point)
    (top bottom : Solid) :
    (key_positions min_corner max_corner).length = 4 ∧
    (∀ p, (insert_keys min_corner max_corner (top, bottom)).1 p
        = (top p && !(keys_union min_corner max_corner p))) ∧
    (∀ p, (insert_keys min_corner max_corner (top, bottom)).2 p
        = (bottom p || keys_union min_corner max_corner p)) :=
  ⟨rfl,
   fun p => insert_keys_fst min_corner max_corner top bottom p,
   fun p => insert_keys_snd min_corner max_corner top bottom p⟩

/-- C9: with a non-existing input path the program produces only the error
message (no mold construction, no export); with an existing path it runs
the pipeline. -/
theorem main_entry_behavior (load_mesh : String → Mesh)
    (fill_holes : Mesh → Mesh) (is_empty : Solid → Bool)
    (input_file : String) :
    main_entry load_mesh fill_holes is_empty false input_file
      = MainOutcome.errorMessage
          ("Input file " ++ input_file ++ " does not exist.") ∧
    main_entry load_mesh fill_holes is_empty true input_file
      = MainOutcome.pipelineRun
          (create_negative_space_mold fill_holes is_empty
            (load_mesh input_file)) :=
  ⟨rfl, rfl⟩

/-- C6: whenever the pipeline succeeds, the exported top half is exactly the
top half as it stood after key insertion (unchanged by the spout-carving
step) and only the bottom half receives the pour-spout subtraction. -/
theorem spout_subtracted_from_bottom_only (fill_holes : Mesh → Mesh)
    (is_empty : Solid → Bool) (input_mesh : Mesh) (top bottom : Solid)
    (h : create_negative_space_mold fill_holes is_empty input_mesh
        = Except.ok (top, bottom)) :
    top = (keyed_halves (watertight_step fill_holes input_mesh)).1 ∧
    bottom = trimesh.boolean.difference
      (keyed_halves (watertight_step fill_holes input_mesh)).2
      (spout_of (watertight_step fill_holes input_mesh)) := by
  simp only [create_negative_space_mold, mold_halves] at h
  set m := watertight_step fill_holes input_mesh with hm
  cases hs : spout_call is_empty m with
  | error e => rw [hs] at h; simp at h
  | ok s =>
      rw [hs] at h
      simp only [Except.ok.injEq, Prod.mk.injEq] at h
      have hs' : create_pour_spout is_empty (mwc_of m) wall_thickness
          (min_corner_of m) (max_corner_of m)
          (z_split (min_corner_of m) (max_corner_of m)) = Except.ok s := hs
      have hspout := create_pour_spout_ok_eq _ _ _ _ _ _ _ hs'
      refine ⟨h.1.symm, ?_⟩
      rw [← h.2, hspout]
      rfl

/-- The top half of the demonstration run. -/
def demo_top : Solid := (keyed_halves demo_empty_mesh).1

/-- The bottom half of the demonstration run. -/
def demo_bottom : Solid :=
  trimesh.boolean.difference (keyed_halves demo_empty_mesh).2
    (spout_of demo_empty_mesh)

theorem spout_subtracted_from_bottom_only_witness :
    create_negative_space_mold id (fun _ => false) demo_empty_mesh
      = Except.ok (demo_top, demo_bottom) ∧
    demo_top = (keyed_halves (watertight_step id demo_empty_mesh)).1 ∧
    demo_bottom = trimesh.boolean.difference
      (keyed_halves (watertight_step id demo_empty_mesh)).2
      (spout_of (watertight_step id demo_empty_mesh)) :=
  ⟨rfl,
   (spout_subtracted_from_bottom_only id (fun _ => false) demo_empty_mesh
      demo_top demo_bottom rfl).1,
   (spout_subtracted_from_bottom_only id (fun _ => false) demo_empty_mesh
      demo_top demo_bottom rfl).2⟩

/-- A watertight mesh whose geometry fills all of space, with the 50-cube
bounds; its shelled block is empty, which makes the emptiness semantics of
the spout check easy to evaluate. -/
def demo_full_mesh : Mesh :=
  { solid := fun _ => true
    is_watertight := true
    bounds := (⟨-25, -25, -25⟩, ⟨25, 25, 25⟩) }

/-- C1: in `create_pour_spout` the candidate spout cylinder is intersected
against the cavity solid passed in (`mold_with_cavity`); provided the
library emptiness test is correct on that boolean result, the construction
fails with the explicit error exactly when the intersection is empty, an
accepted spout is the unmodified candidate (no repositioning or resizing is
attempted), and a failing check propagates so that the pipeline exports no
mold, returning the same error. -/
theorem create_pour_spout_validation (fill_holes : Mesh → Mesh)
    (is_empty : Solid → Bool) (input_mesh : Mesh)
    (h : is_empty (trimesh.boolean.intersection
          (spout_of (watertight_step fill_holes input_mesh))
          (mwc_of (watertight_step fill_holes input_mesh))) = true ↔
        SolidEmpty (trimesh.boolean.intersection
          (spout_of (watertight_step fill_holes input_mesh))
          (mwc_of (watertight_step fill_holes input_mesh)))) :
    ((∃ msg, spout_call is_empty (watertight_step fill_holes input_mesh)
        = Except.error msg) ↔
      SolidEmpty (trimesh.boolean.intersection
        (spout_of (watertight_step fill_holes input_mesh))
        (mwc_of (watertight_step fill_holes input_mesh)))) ∧
    (∀ s, spout_call is_empty (watertight_step fill_holes input_mesh)
        = Except.ok s →
      s = spout_of (watertight_step fill_holes input_mesh)) ∧
    (∀ msg, spout_call is_empty (watertight_step fill_holes input_mesh)
        = Except.error msg →
      create_negative_space_mold fill_holes is_empty input_mesh
        = Except.error msg) := by
  set m := watertight_step fill_holes input_mesh with hm
  refine ⟨?_, ?_, ?_⟩
  · exact (create_pour_spout_error_iff is_empty (mwc_of m) wall_thickness
      (min_corner_of m) (max_corner_of m)
      (z_split (min_corner_of m) (max_corner_of m))).trans h
  · intro s hs
    exact create_pour_spout_ok_eq is_empty (mwc_of m) wall_thickness
      (min_corner_of m) (max_corner_of m)
      (z_split (min_corner_of m) (max_corner_of m)) s hs
  · intro msg hmsg
    simp only [create_negative_space_mold, mold_halves, ← hm]
    rw [hmsg]

theorem create_pour_spout_validation_witness :
    ((fun _ => true : Solid → Bool) (trimesh.boolean.intersection
          (spout_of (watertight_step id demo_full_mesh))
          (mwc_of (watertight_step id demo_full_mesh))) = true ↔
        SolidEmpty (trimesh.boolean.intersection
          (spout_of (watertight_step id demo_full_mesh))
          (mwc_of (watertight_step id demo_full_mesh)))) ∧
    (((∃ msg, spout_call (fun _ => true) (watertight_step id demo_full_mesh)
        = Except.error msg) ↔
      SolidEmpty (trimesh.boolean.intersection
        (spout_of (watertight_step id demo_full_mesh))
        (mwc_of (watertight_step id demo_full_mesh)))) ∧
    (∀ s, spout_call (fun _ => true) (watertight_step id demo_full_mesh)
        = Except.ok s →
      s = spout_of (watertight_step id demo_full_mesh)) ∧
    (∀ msg, spout_call (fun _ => true) (watertight_step id demo_full_mesh)
        = Except.error msg →
      create_negative_space_mold id (fun _ => true) demo_full_mesh
        = Except.error msg)) := by
  have hempty : SolidEmpty (trimesh.boolean.intersection
      (spout_of (watertight_step id demo_full_mesh))
      (mwc_of (watertight_step id demo_full_mesh))) := by
    intro p
    simp [trimesh.boolean.intersection, mwc_of, mold_with_cavity,
      trimesh.boolean.difference, watertight_step, demo_full_mesh]
  have h : ((fun _ => true : Solid → Bool) (trimesh.boolean.intersection
        (spout_of (watertight_step id demo_full_mesh))
        (mwc_of (watertight_step id demo_full_mesh))) = true ↔
      SolidEmpty (trimesh.boolean.intersection
        (spout_of (watertight_step id demo_full_mesh))
        (mwc_of (watertight_step id demo_full_mesh)))) :=
    ⟨fun _ => hempty, fun _ => rfl⟩
  exact ⟨h, create_pour_spout_validation id (fun _ => true) demo_full_mesh h⟩

/-- C7 (amended): a non-watertight input receives exactly one hole-filling
attempt before cavity carving and no retry; there is no re-check afterwards,
the pipeline simply continues on the repaired mesh, and the only error the
whole run can ever raise is the pour-spout one — a mesh that remains
non-watertight is carried through to export without any error. -/
theorem watertight_single_repair_no_recheck (fill_holes : Mesh → Mesh)
    (is_empty : Solid → Bool) (input_mesh : Mesh) :
    (input_mesh.is_watertight = true →
      watertight_step fill_holes input_mesh = input_mesh) ∧
    (input_mesh.is_watertight = false →
      watertight_step fill_holes input_mesh = fill_holes input_mesh) ∧
    create_negative_space_mold fill_holes is_empty input_mesh
      = mold_halves is_empty (watertight_step fill_holes input_mesh) ∧
    (∀ msg, create_negative_space_mold fill_holes is_empty input_mesh
        = Except.error msg →
      msg = "Pour spout does not intersect with the cavity!") := by
  refine ⟨?_, ?_, rfl, ?_⟩
  · intro hw; simp [watertight_step, hw]
  · intro hw; simp [watertight_step, hw]
  · intro msg hmsg
    simp only [create_negative_space_mold, mold_halves] at hmsg
    cases hs : spout_call is_empty (watertight_step fill_holes input_mesh) with
    | error e =>
        rw [hs] at hmsg
        simp only [Except.error.injEq] at hmsg
        rw [← hmsg]
        exact create_pour_spout_error_msg is_empty _ _ _ _ _ e hs
    | ok s => rw [hs] at hmsg; simp at hmsg

theorem watertight_single_repair_no_recheck_witness :
    demo_nw_mesh.is_watertight = false ∧
    watertight_step id demo_nw_mesh = id demo_nw_mesh ∧
    create_negative_space_mold id (fun _ => false) demo_nw_mesh
      = mold_halves (fun _ => false) (watertight_step id demo_nw_mesh) :=
  ⟨rfl,
   (watertight_single_repair_no_recheck id (fun _ => false) demo_nw_mesh).2.1
     rfl,
   (watertight_single_repair_no_recheck id (fun _ => false)
      demo_nw_mesh).2.2.1⟩

/-- C7 (counterexample to the claim as stated): a mesh that is still
non-watertight after the single repair attempt is not surfaced as a hard
error — the pipeline silently carries it through to a successful export.
Here the repair function is the identity (a repair that achieves nothing),
the repaired mesh is still non-watertight, yet the run returns the exported
pair; the emptiness oracle answers `false`, which conjunct four shows is the
truthful answer. -/
theorem non_watertight_carried_to_export :
    demo_nw_mesh.is_watertight = false ∧
    (watertight_step id demo_nw_mesh).is_watertight = false ∧
    create_negative_space_mold id (fun _ => false) demo_nw_mesh
      = Except.ok ((keyed_halves demo_nw_mesh).1,
          trimesh.boolean.difference (keyed_halves demo_nw_mesh).2
            (spout_of demo_nw_mesh)) ∧
    ¬ SolidEmpty (trimesh.boolean.intersection (spout_of demo_nw_mesh)
        (mwc_of demo_nw_mesh)) := by
  refine ⟨rfl, rfl, rfl, ?_⟩
  intro h
  have hval : trimesh.boolean.intersection (spout_of demo_nw_mesh)
      (mwc_of demo_nw_mesh) ⟨-11, 0, 4⟩ = true := by
    simp only [trimesh.boolean.intersection, spout_of, pour_spout_solid,
      apply_translation, trimesh.creation.cylinder, mwc_of, mold_with_cavity,
      mold_block, trimesh.creation.box, mold_block_size, mold_block_transform,
      min_corner_of, max_corner_of, z_split, wall_thickness, demo_nw_mesh,
      trimesh.boolean.difference]
    norm_num
  have hp := h ⟨-11, 0, 4⟩
  rw [hval] at hp
  exact Bool.noConfusion hp

/-- C4: for a mesh whose reported bounding box really contains its solid,
the mold block has extents `(max - min) + 2 * wall_thickness`, is centred at
the bounding-box midpoint, its faces lie exactly one `wall_thickness`
beyond the corresponding bounding-box faces (uniform clearance), and it
contains the whole solid. -/
theorem mold_block_encloses (input_mesh : Mesh)
    (hb : ∀ p, input_mesh.solid p = true →
      in_bounds input_mesh.bounds.1 input_mesh.bounds.2 p) :
    mold_block_size (min_corner_of input_mesh) (max_corner_of input_mesh)
      = ⟨input_mesh.bounds.2.x - input_mesh.bounds.1.x + 2 * wall_thickness,
         input_mesh.bounds.2.y - input_mesh.bounds.1.y + 2 * wall_thickness,
         input_mesh.bounds.2.z - input_mesh.bounds.1.z + 2 * wall_thickness⟩ ∧
    mold_block_transform (min_corner_of input_mesh) (max_corner_of input_mesh)
      = ⟨(input_mesh.bounds.1.x + input_mesh.bounds.2.x) / 2,
         (input_mesh.bounds.1.y + input_mesh.bounds.2.y) / 2,
         (input_mesh.bounds.1.z + input_mesh.bounds.2.z) / 2⟩ ∧
    (∀ p, mold_block (min_corner_of input_mesh) (max_corner_of input_mesh) p
        = true ↔
      (input_mesh.bounds.1.x - wall_thickness ≤ p.x ∧
       p.x ≤ input_mesh.bounds.2.x + wall_thickness ∧
       input_mesh.bounds.1.y - wall_thickness ≤ p.y ∧
       p.y ≤ input_mesh.bounds.2.y + wall_thickness ∧
       input_mesh.bounds.1.z - wall_thickness ≤ p.z ∧
       p.z ≤ input_mesh.bounds.2.z + wall_thickness)) ∧
    (∀ p, input_mesh.solid p = true →
      mold_block (min_corner_of input_mesh) (max_corner_of input_mesh) p
        = true) := by
  refine ⟨?_, ?_, ?_, ?_⟩
  · apply Point.ext <;>
      simp only [mold_block_size, min_corner_of, max_corner_of] <;> ring
  · apply Point.ext <;>
      simp only [mold_block_transform, min_corner_of, max_corner_of] <;> ring
  · intro p
    rw [mold_block_mem]
    simp [in_bounds, min_corner_of, max_corner_of]
  · intro p hp
    rw [mold_block_mem]
    obtain ⟨h1, h2, h3, h4, h5, h6⟩ := hb p hp
    refine ⟨?_, ?_, ?_, ?_, ?_, ?_⟩ <;>
      simp only [min_corner_of, max_corner_of, wall_thickness] <;> linarith

theorem mold_block_encloses_witness :
    (∀ p, demo_cube_mesh.solid p = true →
      in_bounds demo_cube_mesh.bounds.1 demo_cube_mesh.bounds.2 p) ∧
    mold_block_size (min_corner_of demo_cube_mesh) (max_corner_of demo_cube_mesh)
      = ⟨70, 70, 70⟩ ∧
    mold_block_transform (min_corner_of demo_cube_mesh)
      (max_corner_of demo_cube_mesh) = ⟨0, 0, 0⟩ ∧
    (∀ p, demo_cube_mesh.solid p = true →
      mold_block (min_corner_of demo_cube_mesh) (max_corner_of demo_cube_mesh) p
        = true) := by
  have hb : ∀ p, demo_cube_mesh.solid p = true →
      in_bounds demo_cube_mesh.bounds.1 demo_cube_mesh.bounds.2 p := by
    intro p hp
    simp only [demo_cube_mesh] at hp ⊢
    rw [box_mem] at hp
    obtain ⟨⟨h1, h2⟩, ⟨h3, h4⟩, ⟨h5, h6⟩⟩ := hp
    refine ⟨?_, ?_, ?_, ?_, ?_, ?_⟩ <;> simp at h1 h2 h3 h4 h5 h6 ⊢ <;> linarith
  refine ⟨hb, ?_, ?_, (mold_block_encloses demo_cube_mesh hb).2.2.2⟩
  · refine ((mold_block_encloses demo_cube_mesh hb).1).trans ?_
    apply Point.ext <;> norm_num [demo_cube_mesh, wall_thickness]
  · refine ((mold_block_encloses demo_cube_mesh hb).2.1).trans ?_
    apply Point.ext <;> simp [demo_cube_mesh]

/-- C2 (amended): the four alignment-key centres are inset by one
`wall_thickness` from the XY corners of the expanded mold block, which
places them exactly at the XY corners of the original bounding box; all
four lie at the z-split plane, and each key is a cylinder of radius
`wall_thickness / 4 = 2.5` and height `wall_thickness = 10` centred at its
position.  In the end-to-end 50-cube scenario the keys therefore sit at
`(±25, ±25, 0)`, not at `(±15, ±15, 0)`. -/
theorem key_positions_spec (input_mesh : Mesh) :
    key_positions (min_corner_of input_mesh) (max_corner_of input_mesh)
      = [⟨input_mesh.bounds.1.x, input_mesh.bounds.1.y,
          (input_mesh.bounds.1.z + input_mesh.bounds.2.z) / 2⟩,
         ⟨input_mesh.bounds.2.x, input_mesh.bounds.1.y,
          (input_mesh.bounds.1.z + input_mesh.bounds.2.z) / 2⟩,
         ⟨input_mesh.bounds.1.x, input_mesh.bounds.2.y,
          (input_mesh.bounds.1.z + input_mesh.bounds.2.z) / 2⟩,
         ⟨input_mesh.bounds.2.x, input_mesh.bounds.2.y,
          (input_mesh.bounds.1.z + input_mesh.bounds.2.z) / 2⟩] ∧
    (∀ position ∈ key_positions (min_corner_of input_mesh)
        (max_corner_of input_mesh),
      position.z = z_split (min_corner_of input_mesh)
        (max_corner_of input_mesh)) ∧
    key_radius = 5 / 2 ∧ key_height = 10 ∧
    (∀ position p, key_solid position p = true ↔
      ((p.x - position.x) ^ 2 + (p.y - position.y) ^ 2 ≤ key_radius ^ 2 ∧
       position.z - key_height / 2 ≤ p.z ∧
       p.z ≤ position.z + key_height / 2)) := by
  refine ⟨?_, ?_, ?_, ?_, ?_⟩
  · simp only [key_positions, min_corner_of, max_corner_of, z_split,
      List.cons.injEq, and_true]
    refine ⟨?_, ?_, ?_, ?_⟩ <;> apply Point.ext <;> simp
  · intro position hpos
    simp only [key_positions, List.mem_cons, List.not_mem_nil, or_false]
      at hpos
    rcases hpos with h | h | h | h <;> rw [h]
  · norm_num [key_radius, wall_thickness]
  · norm_num [key_height, wall_thickness]
  · intro position p
    rw [key_solid, apply_translation, cylinder_mem]
    constructor
    · rintro ⟨h1, h2, h3⟩
      refine ⟨h1, by linarith, by linarith⟩
    · rintro ⟨h1, h2, h3⟩
      refine ⟨h1, by linarith, by linarith⟩

/-- C2 (counterexample): in the end-to-end scenario (watertight 50-cube
centred at the origin, thickness 10) the key centres computed by the
pipeline are `(±25, ±25, 0)` — at the original bounding-box corners, not
inset from them — and none of them is the claimed `(±15, ±15, 0)`. -/
theorem key_positions_cube_counterexample :
    key_positions (min_corner_of demo_cube_mesh) (max_corner_of demo_cube_mesh)
      = [⟨-25, -25, 0⟩, ⟨25, -25, 0⟩, ⟨-25, 25, 0⟩, ⟨25, 25, 0⟩] ∧
    Point.mk (-15) (-15) 0 ∉
      key_positions (min_corner_of demo_cube_mesh)
        (max_corner_of demo_cube_mesh) ∧
    Point.mk 15 (-15) 0 ∉
      key_positions (min_corner_of demo_cube_mesh)
        (max_corner_of demo_cube_mesh) ∧
    Point.mk (-15) 15 0 ∉
      key_positions (min_corner_of demo_cube_mesh)
        (max_corner_of demo_cube_mesh) ∧
    Point.mk 15 15 0 ∉
      key_positions (min_corner_of demo_cube_mesh)
        (max_corner_of demo_cube_mesh) := by
  have hlist : key_positions (min_corner_of demo_cube_mesh)
      (max_corner_of demo_cube_mesh)
      = [⟨-25, -25, 0⟩, ⟨25, -25, 0⟩, ⟨-25, 25, 0⟩, ⟨25, 25, 0⟩] := by
    simp only [key_positions, min_corner_of, max_corner_of, z_split,
      demo_cube_mesh, List.cons.injEq, and_true]
    refine ⟨?_, ?_, ?_, ?_⟩ <;> apply Point.ext <;> norm_num
  refine ⟨hlist, ?_, ?_, ?_, ?_⟩ <;> rw [hlist] <;>
    simp only [List.mem_cons, List.not_mem_nil, or_false, Point.mk.injEq] <;>
    push_neg <;> norm_num

theorem top_split_box_mem (mn mx : Point) (p : Point) :
    top_split_box mn mx p = true ↔
      (mn.x ≤ p.x ∧ p.x ≤ mx.x ∧ mn.y ≤ p.y ∧ p.y ≤ mx.y ∧
       z_split mn mx ≤ p.z ∧ p.z ≤ mx.z) := by
  rw [top_split_box, box_mem]
  simp only [mold_block_size, z_split]
  constructor
  · rintro ⟨⟨h1, h2⟩, ⟨h3, h4⟩, ⟨h5, h6⟩⟩
    refine ⟨?_, ?_, ?_, ?_, ?_, ?_⟩ <;> linarith
  · rintro ⟨h1, h2, h3, h4, h5, h6⟩
    refine ⟨⟨?_, ?_⟩, ⟨?_, ?_⟩, ⟨?_, ?_⟩⟩ <;> linarith

theorem bottom_split_box_mem (mn mx : Point) (p : Point) :
    bottom_split_box mn mx p = true ↔
      (mn.x ≤ p.x ∧ p.x ≤ mx.x ∧ mn.y ≤ p.y ∧ p.y ≤ mx.y ∧
       mn.z ≤ p.z ∧ p.z ≤ z_split mn mx) := by
  rw [bottom_split_box, box_mem]
  simp only [mold_block_size, z_split]
  constructor
  · rintro ⟨⟨h1, h2⟩, ⟨h3, h4⟩, ⟨h5, h6⟩⟩
    refine ⟨?_, ?_, ?_, ?_, ?_, ?_⟩ <;> linarith
  · rintro ⟨h1, h2, h3, h4, h5, h6⟩
    refine ⟨⟨?_, ?_⟩, ⟨?_, ?_⟩, ⟨?_, ?_⟩⟩ <;> linarith

theorem mwc_mem (m : Mesh) (p : Point) :
    mwc_of m p = true ↔
      (mold_block (min_corner_of m) (max_corner_of m) p = true ∧
       m.solid p = false) := by
  simp only [mwc_of, mold_with_cavity, trimesh.boolean.difference,
    Bool.and_eq_true, Bool.not_eq_true']

/-- C5: the split plane is the arithmetic midpoint of the shelled block's
z-extent — every point of the shelled block has `min_corner.z ≤ z ≤
max_corner.z`, both extremes are attained, and `z_split` is the midpoint of
those two values — and the top and bottom halves obtained by intersecting
the shelled block with the two half-extent boxes partition it exactly:
their union equals the shelled block at every point, and any point of their
intersection lies on the plane `z = z_split`. -/
theorem mold_split_partition (input_mesh : Mesh)
    (hb : ∀ p, input_mesh.solid p = true →
      in_bounds input_mesh.bounds.1 input_mesh.bounds.2 p)
    (hx : input_mesh.bounds.1.x ≤ input_mesh.bounds.2.x)
    (hy : input_mesh.bounds.1.y ≤ input_mesh.bounds.2.y)
    (hz : input_mesh.bounds.1.z ≤ input_mesh.bounds.2.z) :
    z_split (min_corner_of input_mesh) (max_corner_of input_mesh)
      = ((min_corner_of input_mesh).z + (max_corner_of input_mesh).z) / 2 ∧
    (∀ p, mwc_of input_mesh p = true →
      (min_corner_of input_mesh).z ≤ p.z ∧
      p.z ≤ (max_corner_of input_mesh).z) ∧
    (∃ p, mwc_of input_mesh p = true ∧
      p.z = (min_corner_of input_mesh).z) ∧
    (∃ p, mwc_of input_mesh p = true ∧
      p.z = (max_corner_of input_mesh).z) ∧
    (∀ p, trimesh.boolean.union
        (mold_top_initial input_mesh.solid (min_corner_of input_mesh)
          (max_corner_of input_mesh))
        (mold_bottom_initial input_mesh.solid (min_corner_of input_mesh)
          (max_corner_of input_mesh)) p
      = mwc_of input_mesh p) ∧
    (∀ p, trimesh.boolean.intersection
        (mold_top_initial input_mesh.solid (min_corner_of input_mesh)
          (max_corner_of input_mesh))
        (mold_bottom_initial input_mesh.solid (min_corner_of input_mesh)
          (max_corner_of input_mesh)) p = true →
      p.z = z_split (min_corner_of input_mesh) (max_corner_of input_mesh)) := by
  refine ⟨rfl, ?_, ?_, ?_, ?_, ?_⟩
  · intro p hp
    obtain ⟨hblock, -⟩ := (mwc_mem input_mesh p).1 hp
    obtain ⟨-, -, -, -, h5, h6⟩ := (mold_block_mem _ _ p).1 hblock
    exact ⟨h5, h6⟩
  · refine ⟨min_corner_of input_mesh, ?_, rfl⟩
    rw [mwc_mem]
    constructor
    · rw [mold_block_mem]
      refine ⟨le_refl _, ?_, le_refl _, ?_, le_refl _, ?_⟩ <;>
        simp only [min_corner_of, max_corner_of, wall_thickness] <;> linarith
    · cases horig : input_mesh.solid (min_corner_of input_mesh)
      · rfl
      · obtain ⟨h1, -⟩ := hb _ horig
        simp only [min_corner_of, wall_thickness] at h1
        linarith
  · refine ⟨max_corner_of input_mesh, ?_, rfl⟩
    rw [mwc_mem]
    constructor
    · rw [mold_block_mem]
      refine ⟨?_, le_refl _, ?_, le_refl _, ?_, le_refl _⟩ <;>
        simp only [min_corner_of, max_corner_of, wall_thickness] <;> linarith
    · cases horig : input_mesh.solid (max_corner_of input_mesh)
      · rfl
      · obtain ⟨-, h2, -⟩ := hb _ horig
        simp only [max_corner_of, wall_thickness] at h2
        linarith
  · intro p
    simp only [trimesh.boolean.union, mold_top_initial, mold_bottom_initial,
      trimesh.boolean.intersection]
    cases hm : mwc_of input_mesh p with
    | false =>
        have hm' : mold_with_cavity input_mesh.solid (min_corner_of input_mesh)
            (max_corner_of input_mesh) p = false := hm
        rw [hm']
        simp
    | true =>
        have hm' : mold_with_cavity input_mesh.solid (min_corner_of input_mesh)
            (max_corner_of input_mesh) p = true := hm
        rw [hm']
        obtain ⟨hblock, -⟩ := (mwc_mem input_mesh p).1 hm
        obtain ⟨h1, h2, h3, h4, h5, h6⟩ := (mold_block_mem _ _ p).1 hblock
        rcases le_total p.z
            (z_split (min_corner_of input_mesh) (max_corner_of input_mesh))
          with hle | hle
        · have hbot : bottom_split_box (min_corner_of input_mesh)
              (max_corner_of input_mesh) p = true := by
            rw [bottom_split_box_mem]
            exact ⟨h1, h2, h3, h4, h5, hle⟩
          rw [hbot]
          simp
        · have htop : top_split_box (min_corner_of input_mesh)
              (max_corner_of input_mesh) p = true := by
            rw [top_split_box_mem]
            exact ⟨h1, h2, h3, h4, hle, h6⟩
          rw [htop]
          simp
  · intro p hp
    simp only [trimesh.boolean.intersection, mold_top_initial,
      mold_bottom_initial, Bool.and_eq_true] at hp
    obtain ⟨⟨-, htop⟩, ⟨-, hbot⟩⟩ := hp
    obtain ⟨-, -, -, -, h5, -⟩ := (top_split_box_mem _ _ p).1 htop
    obtain ⟨-, -, -, -, -, h6⟩ := (bottom_split_box_mem _ _ p).1 hbot
    exact le_antisymm h6 h5

theorem mold_split_partition_witness :
    ((∀ p, demo_cube_mesh.solid p = true →
        in_bounds demo_cube_mesh.bounds.1 demo_cube_mesh.bounds.2 p) ∧
      demo_cube_mesh.bounds.1.x ≤ demo_cube_mesh.bounds.2.x ∧
      demo_cube_mesh.bounds.1.y ≤ demo_cube_mesh.bounds.2.y ∧
      demo_cube_mesh.bounds.1.z ≤ demo_cube_mesh.bounds.2.z) ∧
    z_split (min_corner_of demo_cube_mesh) (max_corner_of demo_cube_mesh)
      = ((min_corner_of demo_cube_mesh).z + (max_corner_of demo_cube_mesh).z)
          / 2 ∧
    (∃ p, mwc_of demo_cube_mesh p = true ∧
      p.z = (min_corner_of demo_cube_mesh).z) ∧
    (∀ p, trimesh.boolean.union
        (mold_top_initial demo_cube_mesh.solid (min_corner_of demo_cube_mesh)
          (max_corner_of demo_cube_mesh))
        (mold_bottom_initial demo_cube_mesh.solid
          (min_corner_of demo_cube_mesh) (max_corner_of demo_cube_mesh)) p
      = mwc_of demo_cube_mesh p) := by
  have hb : ∀ p, demo_cube_mesh.solid p = true →
      in_bounds demo_cube_mesh.bounds.1 demo_cube_mesh.bounds.2 p := by
    intro p hp
    simp only [demo_cube_mesh] at hp ⊢
    rw [box_mem] at hp
    obtain ⟨⟨h1, h2⟩, ⟨h3, h4⟩, ⟨h5, h6⟩⟩ := hp
    refine ⟨?_, ?_, ?_, ?_, ?_, ?_⟩ <;> simp at h1 h2 h3 h4 h5 h6 ⊢ <;> linarith
  have hx : demo_cube_mesh.bounds.1.x ≤ demo_cube_mesh.bounds.2.x := by
    simp [demo_cube_mesh]
  have hy : demo_cube_mesh.bounds.1.y ≤ demo_cube_mesh.bounds.2.y := by
    simp [demo_cube_mesh]
  have hz : demo_cube_mesh.bounds.1.z ≤ demo_cube_mesh.bounds.2.z := by
    simp [demo_cube_mesh]
  have h := mold_split_partition demo_cube_mesh hb hx hy hz
  exact ⟨⟨hb, hx, hy, hz⟩, h.1, h.2.2.1, h.2.2.2.2.1⟩

theorem key_solid_mem (position : Point) (p : Point) :
    key_solid position p = true ↔
      ((p.x - position.x) ^ 2 + (p.y - position.y) ^ 2 ≤ key_radius ^ 2 ∧
       -(key_height / 2) ≤ p.z - position.z ∧
       p.z - position.z ≤ key_height / 2) := by
  simp only [key_solid, apply_translation]
  rw [cylinder_mem]

theorem spout_cube_mem (p : Point) :
    spout_of demo_cube_mesh p = true ↔
      ((p.x + 11) ^ 2 + p.y ^ 2 ≤ 25 / 4 ∧ -24 ≤ p.z ∧ p.z ≤ 4) := by
  simp only [spout_of, pour_spout_solid, apply_translation, min_corner_of,
    max_corner_of, z_split, wall_thickness, demo_cube_mesh]
  rw [cylinder_mem]
  norm_num
  intro _
  constructor <;> rintro ⟨h2, h3⟩ <;> exact ⟨by linarith, by linarith⟩

/-- C3 (code evaluation at the failing input): for the end-to-end 50-cube
input the pour spout the code builds is a vertical cylinder — trimesh's
`cylinder` has its axis along z and `create_pour_spout` applies only a
translation — so it contains the points `(-11, 0, 4)` and `(-11, 0, -24)`
(a z-span of 28 = the computed spout length) although `4 > z_split = 0`,
i.e. the spout does not stay within the bottom half; it does not contain
the entry point `(-25, 0, -10)` that the claimed horizontal spout would
pass through; and it lies entirely inside the cavity, so its intersection
with the shelled block is empty and the code raises the `ValueError`
instead of producing the mold the spec expects. -/
theorem pour_spout_vertical_code_eval :
    spout_of demo_cube_mesh ⟨-11, 0, 4⟩ = true ∧
    spout_of demo_cube_mesh ⟨-11, 0, -24⟩ = true ∧
    spout_of demo_cube_mesh ⟨-25, 0, -10⟩ = false ∧
    z_split (min_corner_of demo_cube_mesh) (max_corner_of demo_cube_mesh)
      = 0 ∧
    SolidEmpty (trimesh.boolean.intersection (spout_of demo_cube_mesh)
      (mwc_of demo_cube_mesh)) := by
  refine ⟨?_, ?_, ?_, ?_, ?_⟩
  · exact (spout_cube_mem ⟨-11, 0, 4⟩).2 (by norm_num)
  · exact (spout_cube_mem ⟨-11, 0, -24⟩).2 (by norm_num)
  · cases hs : spout_of demo_cube_mesh ⟨-25, 0, -10⟩
    · rfl
    · exfalso
      obtain ⟨h1, -, -⟩ := (spout_cube_mem ⟨-25, 0, -10⟩).1 hs
      norm_num at h1
  · norm_num [z_split, min_corner_of, max_corner_of, demo_cube_mesh,
      wall_thickness]
  · intro p
    simp only [trimesh.boolean.intersection]
    cases hs : spout_of demo_cube_mesh p
    · simp
    · obtain ⟨h1, h2, h3⟩ := (spout_cube_mem p).1 hs
      have hsolid : demo_cube_mesh.solid p = true := by
        simp only [demo_cube_mesh]
        rw [box_mem]
        norm_num
        refine ⟨⟨?_, ?_⟩, ⟨?_, ?_⟩, ⟨?_, ?_⟩⟩ <;>
          nlinarith [h1, h2, h3, sq_nonneg (p.x + 11), sq_nonneg p.y,
            sq_nonneg (p.x + 27 / 2), sq_nonneg (p.x + 17 / 2),
            sq_nonneg (p.y + 5 / 2), sq_nonneg (p.y - 5 / 2)]
      have hmwc : mwc_of demo_cube_mesh p = false := by
        simp only [mwc_of, mold_with_cavity, trimesh.boolean.difference,
          hsolid]
        simp
      rw [hmwc]
      simp

/-- An input solid for exercising the spout validation: the lower half of
the 50-cube (`[-25,25] × [-25,25] × [-25,0]`) together with a thin corner
pillar (`[20,25] × [20,25] × [-25,25]`) whose only role is to stretch the
bounding box back to the full `[-25,25]` cube. -/
def c10_solid : Solid := fun p =>
  trimesh.boolean.union
    (trimesh.creation.box ⟨50, 50, 25⟩ ⟨0, 0, -(25 / 2)⟩)
    (trimesh.creation.box ⟨5, 5, 50⟩ ⟨45 / 2, 45 / 2, 0⟩) p

/-- The mesh carrying `c10_solid`, with its true bounding box. -/
def c10_mesh : Mesh :=
  { solid := c10_solid
    is_watertight := true
    bounds := (⟨-25, -25, -25⟩, ⟨25, 25, 25⟩) }

/-- C10: the spout validation checks the spout against the pre-split
shelled block (`mold_with_cavity`), not against the bottom half that the
spout is subsequently subtracted from.  On `c10_mesh` the validation
succeeds — the call returns the spout, and rightly so for the check as
written, since the spout genuinely meets the shelled block — even though
the spout has empty intersection with the keyed bottom half, so the
subtraction that is supposed to carve the pour channel changes nothing. -/
theorem spout_check_ignores_bottom_half :
    spout_call (fun _ => false) c10_mesh = Except.ok (spout_of c10_mesh) ∧
    ¬ SolidEmpty (trimesh.boolean.intersection (spout_of c10_mesh)
        (mwc_of c10_mesh)) ∧
    SolidEmpty (trimesh.boolean.intersection (spout_of c10_mesh)
        ((keyed_halves c10_mesh).2)) ∧
    (∀ p, trimesh.boolean.difference ((keyed_halves c10_mesh).2)
        (spout_of c10_mesh) p = (keyed_halves c10_mesh).2 p) := by
  have hzs : z_split (min_corner_of c10_mesh) (max_corner_of c10_mesh)
      = 0 := by
    norm_num [z_split, min_corner_of, max_corner_of, c10_mesh, wall_thickness]
  have hkl : key_positions (min_corner_of c10_mesh) (max_corner_of c10_mesh)
      = [⟨-25, -25, 0⟩, ⟨25, -25, 0⟩, ⟨-25, 25, 0⟩, ⟨25, 25, 0⟩] := by
    simp only [key_positions, min_corner_of, max_corner_of, z_split,
      c10_mesh, List.cons.injEq, and_true]
    refine ⟨?_, ?_, ?_, ?_⟩ <;> apply Point.ext <;> norm_num
  have hdisj : SolidEmpty (trimesh.boolean.intersection (spout_of c10_mesh)
      ((keyed_halves c10_mesh).2)) := by
    intro p
    simp only [trimesh.boolean.intersection]
    cases hs : spout_of c10_mesh p
    · simp
    · have hs' : spout_of demo_cube_mesh p = true := hs
      obtain ⟨h1, h2, h3⟩ := (spout_cube_mem p).1 hs'
      have hx1 : -(27 / 2) ≤ p.x := by
        nlinarith [h1, sq_nonneg p.y, sq_nonneg (p.x + 27 / 2)]
      have hx2 : p.x ≤ -(17 / 2) := by
        nlinarith [h1, sq_nonneg p.y, sq_nonneg (p.x + 17 / 2)]
      have hy1 : -(5 / 2) ≤ p.y := by
        nlinarith [h1, sq_nonneg (p.x + 11), sq_nonneg (p.y + 5 / 2)]
      have hy2 : p.y ≤ 5 / 2 := by
        nlinarith [h1, sq_nonneg (p.x + 11), sq_nonneg (p.y - 5 / 2)]
      have hbot : mold_bottom_initial c10_mesh.solid (min_corner_of c10_mesh)
          (max_corner_of c10_mesh) p = false := by
        cases hb : mold_bottom_initial c10_mesh.solid (min_corner_of c10_mesh)
            (max_corner_of c10_mesh) p
        · rfl
        · exfalso
          simp only [mold_bottom_initial, trimesh.boolean.intersection,
            Bool.and_eq_true] at hb
          obtain ⟨hmwc, hbox⟩ := hb
          obtain ⟨-, hsolid⟩ := (mwc_mem c10_mesh p).1 hmwc
          obtain ⟨-, -, -, -, -, hz2⟩ :=
            (bottom_split_box_mem _ _ p).1 hbox
          rw [hzs] at hz2
          have hbox1 : trimesh.creation.box ⟨50, 50, 25⟩ ⟨0, 0, -(25 / 2)⟩ p
              = true := by
            rw [box_mem]
            norm_num
            refine ⟨⟨?_, ?_⟩, ⟨?_, ?_⟩, ⟨?_, ?_⟩⟩ <;> linarith
          simp only [c10_mesh, c10_solid, trimesh.boolean.union, hbox1,
            Bool.true_or] at hsolid
          exact Bool.noConfusion hsolid
      have hkeyL : ∀ ky : ℚ, key_solid ⟨-25, ky, 0⟩ p = false := by
        intro ky
        cases hk : key_solid ⟨-25, ky, 0⟩ p
        · rfl
        · exfalso
          obtain ⟨hk1, -, -⟩ := (key_solid_mem _ p).1 hk
          simp only [key_radius, wall_thickness] at hk1
          norm_num at hk1
          nlinarith [hk1, sq_nonneg (p.y - ky),
            mul_nonneg (by linarith : (0 : ℚ) ≤ p.x + 27 / 2)
              (by linarith : (0 : ℚ) ≤ p.x + 73 / 2)]
      have hkeyR : ∀ ky : ℚ, key_solid ⟨25, ky, 0⟩ p = false := by
        intro ky
        cases hk : key_solid ⟨25, ky, 0⟩ p
        · rfl
        · exfalso
          obtain ⟨hk1, -, -⟩ := (key_solid_mem _ p).1 hk
          simp only [key_radius, wall_thickness] at hk1
          norm_num at hk1
          nlinarith [hk1, sq_nonneg (p.y - ky),
            mul_nonneg (by linarith : (0 : ℚ) ≤ -p.x - 17 / 2)
              (by linarith : (0 : ℚ) ≤ 117 / 2 - p.x)]
      have hkeys : keys_union (min_corner_of c10_mesh) (max_corner_of c10_mesh)
          p = false := by
        simp only [keys_union, hkl, List.any_cons, List.any_nil, hkeyL, hkeyR,
          Bool.or_self, Bool.or_false]
      have hsnd : (keyed_halves c10_mesh).2 p = false := by
        rw [keyed_halves, insert_keys_snd, hbot, hkeys]
        rfl
      rw [hsnd]
      simp
  refine ⟨rfl, ?_, hdisj, fun p => difference_eq_self _ _ hdisj p⟩
  intro h
  have hval : trimesh.boolean.intersection (spout_of c10_mesh)
      (mwc_of c10_mesh) ⟨-11, 0, 3⟩ = true := by
    simp only [trimesh.boolean.intersection]
    have hs : spout_of c10_mesh ⟨-11, 0, 3⟩ = true :=
      (spout_cube_mem ⟨-11, 0, 3⟩).2 (by norm_num)
    have hm : mwc_of c10_mesh ⟨-11, 0, 3⟩ = true := by
      rw [mwc_mem]
      constructor
      · rw [mold_block_mem]
        simp only [in_bounds, min_corner_of, max_corner_of, c10_mesh,
          wall_thickness]
        norm_num
      · simp only [c10_mesh, c10_solid, trimesh.boolean.union,
          trimesh.creation.box]
        norm_num
    rw [hs, hm]
    rfl
  rw [h ⟨-11, 0, 3⟩] at hval
  exact Bool.noConfusion hval

theorem key_positions_spec_witness :
    Point.mk (-25) (-25) 0 ∈ key_positions (min_corner_of demo_cube_mesh)
      (max_corner_of demo_cube_mesh) ∧
    (Point.mk (-25) (-25) 0).z = z_split (min_corner_of demo_cube_mesh)
      (max_corner_of demo_cube_mesh) := by
  have hmem : Point.mk (-25) (-25) 0 ∈ key_positions
      (min_corner_of demo_cube_mesh) (max_corner_of demo_cube_mesh) := by
    simp only [key_positions, min_corner_of, max_corner_of, z_split,
      demo_cube_mesh, List.mem_cons]
    left
    apply Point.ext <;> norm_num
  exact ⟨hmem, (key_positions_spec demo_cube_mesh).2.1 _ hmem⟩

end MoldMaker
